import Mathlib

/-!
Verification of the XCM matching engine, the monitoring criteria and the
subscription switchboard of the ocelloids-services repository, as a shallow
embedding in Lean 4.

The embedding follows the TypeScript sources:
* `src/services/matching/engine.ts` — the `MatchingEngine` correlating
  outbound and inbound XCM observations through two keyed sublevel stores;
* `src/services/monitoring/ops/criteria.ts` — the senders and message
  criteria and their matchers;
* `packages/server/src/services/monitoring/switchboard.ts` — the
  `Switchboard` managing subscription lifecycle and notification fan-out.

Keyed sublevel stores are modelled as association lists; the per-engine
mutex serializes the handlers, so each handler is one atomic state
transition. Side effects (observer teardown, notifier calls, warnings)
are modelled as explicit effect traces.
-/

namespace Ocelloids

/-! ### Association-list primitives modelling the keyed (sub)level stores -/

/-- Lookup of a key in an association list, mirroring `sublevel.get`
(`get` rejects when the key is absent, modelled by `none`). -/
def alook {α : Type} (k : String) : List (String × α) → Option α
  | [] => none
  | (k1, v) :: t => if k1 = k then some v else alook k t

/-- Deletion of a key, mirroring the idempotent `sublevel.del`. -/
def adel {α : Type} (k : String) : List (String × α) → List (String × α)
  | [] => []
  | (k1, v) :: t => if k1 = k then adel k t else (k1, v) :: adel k t

/-- Unconditional upsert, mirroring `sublevel.put`. -/
def aput {α : Type} (k : String) (v : α) (l : List (String × α)) :
    List (String × α) :=
  (k, v) :: adel k l

theorem alook_aput_self {α : Type} (k : String) (v : α)
    (l : List (String × α)) : alook k (aput k v l) = some v := by
  simp [aput, alook]

theorem alook_adel_self {α : Type} (k : String) (l : List (String × α)) :
    alook k (adel k l) = none := by
  induction l with
  | nil => rfl
  | cons p t ih =>
    obtain ⟨k1, v⟩ := p
    by_cases h : k1 = k
    · simp [adel, h, ih]
    · simp [adel, alook, h, ih]

/-! ### The matching engine (`src/services/matching/engine.ts`) -/

/-- An outbound (sent) XCM observation, `XcmMessageSent`; only the fields
read by the engine are carried. -/
structure XcmMessageSent where
  chainId : String
  messageHash : String
  recipient : String
  blockHash : String
deriving Repr, DecidableEq

/-- An inbound (received) XCM observation, `XcmMessageReceived`; `chainId`
is the receiving chain. -/
structure XcmMessageReceived where
  chainId : String
  messageHash : String
  blockHash : String
deriving Repr, DecidableEq

/-- The notification `XcmMessageNotify(outMsg, inMsg)` emitted on a match,
joining both contexts. -/
structure XcmMessageNotify where
  outMsg : XcmMessageSent
  inMsg : XcmMessageReceived
deriving Repr, DecidableEq

/-- Engine state: the `out` and `in` sublevels of the pending store. -/
structure EngineState where
  outbound : List (String × XcmMessageSent)
  inbound : List (String × XcmMessageReceived)
deriving Repr, DecidableEq

def EngineState.empty : EngineState := ⟨[], []⟩

/-- Confirmation key at destination used by `onOutboundMessage`:
`${outMsg.messageHash}:${outMsg.recipient}`. -/
def confirmationKeyOut (m : XcmMessageSent) : String :=
  m.messageHash ++ ":" ++ m.recipient

/-- Confirmation key used by `onInboundMessage`:
`${inMsg.messageHash}:${inMsg.chainId}`. -/
def confirmationKeyIn (m : XcmMessageReceived) : String :=
  m.messageHash ++ ":" ++ m.chainId

/-- `MatchingEngine.onOutboundMessage`: under the mutex, look the
confirmation key up in the inbound sublevel; on a hit delete the inbound
entry and emit the joined notification, otherwise store the outbound
message for later matching. -/
def onOutboundMessage (s : EngineState) (outMsg : XcmMessageSent) :
    EngineState × List XcmMessageNotify :=
  let ck := confirmationKeyOut outMsg
  match alook ck s.inbound with
  | some inMsg => ({ s with inbound := adel ck s.inbound }, [⟨outMsg, inMsg⟩])
  | none => ({ s with outbound := aput ck outMsg s.outbound }, [])

/-- `MatchingEngine.onInboundMessage`: under the mutex, look the
confirmation key up in the outbound sublevel; on a hit delete the outbound
entry and emit the joined notification, otherwise store the inbound
message for later matching. -/
def onInboundMessage (s : EngineState) (inMsg : XcmMessageReceived) :
    EngineState × List XcmMessageNotify :=
  let ck := confirmationKeyIn inMsg
  match alook ck s.outbound with
  | some outMsg => ({ s with outbound := adel ck s.outbound }, [⟨outMsg, inMsg⟩])
  | none => ({ s with inbound := aput ck inMsg s.inbound }, [])

/-- One observed leg handed to the engine. -/
inductive Leg where
  | out (m : XcmMessageSent)
  | inb (m : XcmMessageReceived)
deriving Repr, DecidableEq

def engineStep (s : EngineState) : Leg → EngineState × List XcmMessageNotify
  | .out m => onOutboundMessage s m
  | .inb m => onInboundMessage s m

/-- Sequential handling of a list of legs (the mutex serializes handlers),
accumulating the emitted notifications in order. -/
def engineRun (s : EngineState) : List Leg → EngineState × List XcmMessageNotify
  | [] => (s, [])
  | l :: t =>
    ((engineRun (engineStep s l).1 t).1,
     (engineStep s l).2 ++ (engineRun (engineStep s l).1 t).2)

/-! ### Concrete observations used as evaluation inputs -/

def sentAA : XcmMessageSent :=
  ⟨"urn:ocn:polkadot:1000", "0xAA", "urn:ocn:polkadot:2004", "0xb1"⟩

def recvAA : XcmMessageReceived :=
  ⟨"urn:ocn:polkadot:2004", "0xAA", "0xb2"⟩

def sentCC : XcmMessageSent :=
  ⟨"urn:ocn:polkadot:1000", "0xCC", "urn:ocn:polkadot:2004", "0xc1"⟩

def recvCC : XcmMessageReceived :=
  ⟨"urn:ocn:polkadot:2004", "0xCC", "0xc2"⟩

/-- The engine state after both legs of `0xCC` have been observed and
matched (the `MATCHED` situation of the spec's state machine). -/
def matchedStateCC : EngineState :=
  (engineRun EngineState.empty [.out sentCC, .inb recvCC]).1

/-! ### Claims C1-C3 about the matching engine -/

/-- C1: for a sent and a received observation sharing the same message hash,
the receiving chain being the sent message's recipient, and whose composite
key is fresh in both sublevels, the engine emits exactly one matched
notification joining both contexts — in either handling order — and
afterwards neither the outbound nor the inbound namespace holds an entry
for that key. -/
theorem matched_pair_unique_emission
    (s : EngineState) (o : XcmMessageSent) (i : XcmMessageReceived)
    (hhash : i.messageHash = o.messageHash)
    (hchain : i.chainId = o.recipient)
    (hout : alook (confirmationKeyOut o) s.outbound = none)
    (hin : alook (confirmationKeyOut o) s.inbound = none) :
    (engineRun s [.out o, .inb i]).2 = [⟨o, i⟩] ∧
    alook (confirmationKeyOut o) (engineRun s [.out o, .inb i]).1.outbound = none ∧
    alook (confirmationKeyOut o) (engineRun s [.out o, .inb i]).1.inbound = none ∧
    (engineRun s [.inb i, .out o]).2 = [⟨o, i⟩] ∧
    alook (confirmationKeyOut o) (engineRun s [.inb i, .out o]).1.outbound = none ∧
    alook (confirmationKeyOut o) (engineRun s [.inb i, .out o]).1.inbound = none := by
  have hck : confirmationKeyIn i = confirmationKeyOut o := by
    simp [confirmationKeyIn, confirmationKeyOut, hhash, hchain]
  refine ⟨?_, ?_, ?_, ?_, ?_, ?_⟩ <;>
    simp [engineRun, engineStep, onOutboundMessage, onInboundMessage, hck,
      hin, hout, alook_aput_self, alook_adel_self]

/-- Witness for `matched_pair_unique_emission` at the concrete `0xAA`
observations. -/
theorem matched_pair_unique_emission_witness :
    (engineRun EngineState.empty [.out sentAA, .inb recvAA]).2 = [⟨sentAA, recvAA⟩] ∧
    alook (confirmationKeyOut sentAA)
      (engineRun EngineState.empty [.out sentAA, .inb recvAA]).1.outbound = none ∧
    alook (confirmationKeyOut sentAA)
      (engineRun EngineState.empty [.out sentAA, .inb recvAA]).1.inbound = none ∧
    (engineRun EngineState.empty [.inb recvAA, .out sentAA]).2 = [⟨sentAA, recvAA⟩] ∧
    alook (confirmationKeyOut sentAA)
      (engineRun EngineState.empty [.inb recvAA, .out sentAA]).1.outbound = none ∧
    alook (confirmationKeyOut sentAA)
      (engineRun EngineState.empty [.inb recvAA, .out sentAA]).1.inbound = none :=
  matched_pair_unique_emission EngineState.empty sentAA recvAA
    (by decide) (by decide) (by decide) (by decide)

/-- C2 counterexample: handling a sent leg for the first time, with no
counterpart present, emits no notification at all — contradicting the
claim that a base `Sent` notification is emitted immediately. -/
theorem firstSent_no_emission_cex :
    (onOutboundMessage EngineState.empty sentAA).2 = [] := by decide

/-- C2 (amended): a sent leg handled while no counterpart entry exists for
its confirmation key emits no notification; the engine only stores the
pending outbound entry, and a notification is emitted only when the
counterpart arrives. -/
theorem firstSent_stores_only
    (s : EngineState) (o : XcmMessageSent)
    (hin : alook (confirmationKeyOut o) s.inbound = none) :
    (onOutboundMessage s o).2 = [] ∧
    alook (confirmationKeyOut o) (onOutboundMessage s o).1.outbound = some o ∧
    (onOutboundMessage s o).1.inbound = s.inbound := by
  refine ⟨?_, ?_, ?_⟩ <;>
    simp [onOutboundMessage, hin, alook_aput_self]

/-- Witness for `firstSent_stores_only` at the concrete `0xAA` sent leg. -/
theorem firstSent_stores_only_witness :
    (onOutboundMessage EngineState.empty sentAA).2 = [] ∧
    alook (confirmationKeyOut sentAA)
      (onOutboundMessage EngineState.empty sentAA).1.outbound = some sentAA ∧
    (onOutboundMessage EngineState.empty sentAA).1.inbound =
      EngineState.empty.inbound :=
  firstSent_stores_only EngineState.empty sentAA (by decide)

/-- C3 counterexample: after the `0xCC` pair has matched, replaying the
sent leg changes the pending store — a fresh outbound entry appears under
the composite key — contradicting the claim that observations after the
`MATCHED` state cause no state change. -/
theorem terminal_replay_cex :
    alook "0xCC:urn:ocn:polkadot:2004" matchedStateCC.outbound = none ∧
    alook "0xCC:urn:ocn:polkadot:2004"
      (onOutboundMessage matchedStateCC sentCC).1.outbound = some sentCC := by
  decide

/-- C3 (amended): the engine keeps no terminal state. After a key has
matched, a further observation of the sent leg emits no notification but
re-stores the leg as a fresh pending entry (a state change), and
re-observing both legs emits a second matched notification. -/
theorem terminal_replay_restores
    (s : EngineState) (o : XcmMessageSent) (i : XcmMessageReceived)
    (hhash : i.messageHash = o.messageHash)
    (hchain : i.chainId = o.recipient)
    (hout : alook (confirmationKeyOut o) s.outbound = none)
    (hin : alook (confirmationKeyOut o) s.inbound = none) :
    (onOutboundMessage (engineRun s [.out o, .inb i]).1 o).2 = [] ∧
    alook (confirmationKeyOut o)
      (onOutboundMessage (engineRun s [.out o, .inb i]).1 o).1.outbound = some o ∧
    (engineRun (engineRun s [.out o, .inb i]).1 [.out o, .inb i]).2 = [⟨o, i⟩] := by
  have hck : confirmationKeyIn i = confirmationKeyOut o := by
    simp [confirmationKeyIn, confirmationKeyOut, hhash, hchain]
  refine ⟨?_, ?_, ?_⟩ <;>
    simp [engineRun, engineStep, onOutboundMessage, onInboundMessage, hck,
      hin, hout, alook_aput_self, alook_adel_self]

/-- Witness for `terminal_replay_restores` at the concrete `0xCC` pair. -/
theorem terminal_replay_restores_witness :
    (onOutboundMessage
      (engineRun EngineState.empty [.out sentCC, .inb recvCC]).1 sentCC).2 = [] ∧
    alook (confirmationKeyOut sentCC)
      (onOutboundMessage
        (engineRun EngineState.empty [.out sentCC, .inb recvCC]).1 sentCC).1.outbound =
      some sentCC ∧
    (engineRun (engineRun EngineState.empty [.out sentCC, .inb recvCC]).1
      [.out sentCC, .inb recvCC]).2 = [⟨sentCC, recvCC⟩] :=
  terminal_replay_restores EngineState.empty sentCC recvCC
    (by decide) (by decide) (by decide) (by decide)

/-! ### Criteria (`src/services/monitoring/ops/criteria.ts`) -/

/-- The `senders` field of a subscription descriptor: the wildcard or a
finite list of account identifiers. -/
inductive SendersField where
  | star
  | list (senders : List String)
deriving Repr, DecidableEq

/-- The XCM notification types of the type surface. -/
inductive XcmNotificationType where
  | Sent
  | Received
  | Relayed
  | Timeout
  | Hop
deriving Repr, DecidableEq

/-- The `events` field of a subscription descriptor: absent, the `*`
wildcard, or a finite list of notification types. -/
inductive EventsField where
  | undef
  | star
  | list (l : List XcmNotificationType)
deriving Repr, DecidableEq

/-- The criteria shapes produced by `sendersCriteria` and
`messageCriteria`: the empty match-anything criteria, the `$or` of the
four sender `$in` membership tests, and the recipient `$in` test. -/
inductive Criteria where
  | matchAny
  | sendersOr (senders : List String)
  | recipientIn (recipients : List String)
deriving Repr, DecidableEq

/-- `sendersCriteria`: a finite list maps to the `$or` of membership tests
over `extrinsic.signer.{id,publicKey}` and
`extrinsic.extraSigners.{id,publicKey}`; the wildcard maps to the empty
match-anything criteria. -/
def sendersCriteria : SendersField → Criteria
  | .list senders => .sendersOr senders
  | .star => .matchAny

/-- `messageCriteria`: membership of `recipient` in the destinations. -/
def messageCriteria (recipients : List String) : Criteria :=
  .recipientIn recipients

/-- One entry of `extrinsic.extraSigners` as tested by the criteria. -/
structure ExtraSigner where
  id : String
  publicKey : String
deriving Repr, DecidableEq

/-- The sender record built by `matchSenders` from an extrinsic: the
signer's address and public key plus the extra signers. -/
structure ExtrinsicSenders where
  signerId : String
  signerPublicKey : String
  extraSigners : List ExtraSigner
deriving Repr, DecidableEq

/-- Modelled from the spec: `ControlQuery.test` of the external
`@sodazone/ocelloids` SDK evaluated on a sender record, per spec §4.4 — a
boolean combination of `$in` field tests where the empty criteria matches
any record, `$or` is disjunction, and a test on a missing field fails.
Only the criteria shapes produced in this repository are covered. -/
def Criteria.testSenders : Criteria → ExtrinsicSenders → Bool
  | .matchAny, _ => true
  | .sendersOr senders, r =>
      senders.contains r.signerId || senders.contains r.signerPublicKey ||
      r.extraSigners.any fun e =>
        senders.contains e.id || senders.contains e.publicKey
  | .recipientIn _, _ => false

/-- Modelled from the spec: `ControlQuery.test` on a
`{ recipient }` record, per spec §4.4 (see `Criteria.testSenders`). -/
def Criteria.testRecipient : Criteria → String → Bool
  | .matchAny, _ => true
  | .sendersOr _, _ => false
  | .recipientIn recipients, r => recipients.contains r

/-- `matchSenders`: returns `false` when the extrinsic is `undefined`,
otherwise tests the built sender record against the control query. -/
def matchSenders (query : Criteria) (xt : Option ExtrinsicSenders) : Bool :=
  match xt with
  | none => false
  | some r => query.testSenders r

/-- `matchMessage`: tests the outbound XCM recipient against the control
query. -/
def matchMessage (query : Criteria) (recipient : String) : Bool :=
  query.testRecipient recipient

/-! ### The switchboard (`packages/server/src/services/monitoring/switchboard.ts`) -/

/-- A subscription descriptor, with the fields read by the switchboard. -/
structure Subscription where
  id : String
  origin : String
  senders : SendersField
  destinations : List String
  events : EventsField
  ephemeral : Bool
  outboundTTL : Nat
deriving Repr, DecidableEq

/-- The per-subscription handler held in `this.#subs`: the descriptor, the
two control queries, and the chain ids of the attached origin, destination
and relay observer legs. -/
structure SubscriptionHandler where
  descriptor : Subscription
  sendersControl : Criteria
  messageControl : Criteria
  originSubs : List String
  destinationSubs : List String
  relaySub : Option String
deriving Repr, DecidableEq

/-- Switchboard state: the relay-flagged networks of the ingress consumer,
the subscription caps, the in-memory stats, the handler map and the
persistent subscription store. -/
structure SwitchboardState where
  relays : List String
  maxEphemeral : Nat
  maxPersistent : Nat
  ephemeralCount : Nat
  persistentCount : Nat
  subs : List (String × SubscriptionHandler)
  db : List Subscription
deriving Repr, DecidableEq

/-- Side effects of switchboard operations, recorded as a trace. -/
inductive Effect where
  | unsubOrigin (chainId : String)
  | unsubDestination (chainId : String)
  | unsubRelay (chainId : String)
  | clearPendingStates (subscriptionId : String)
  | notify (subscriptionId : String) (msgType : XcmNotificationType)
  | warn (message : String)
deriving Repr, DecidableEq

def Effect.isNotify : Effect → Bool
  | .notify _ _ => true
  | _ => false

/-- The `Switchboard` constructor: the caps default to `10_000` when the
options do not set them. -/
def mkSwitchboard (relays : List String)
    (optMaxEphemeral optMaxPersistent : Option Nat) : SwitchboardState :=
  { relays
    maxEphemeral := optMaxEphemeral.getD 10000
    maxPersistent := optMaxPersistent.getD 10000
    ephemeralCount := 0
    persistentCount := 0
    subs := []
    db := [] }

/-- `descriptor.events === undefined || descriptor.events === '*' ||
descriptor.events.includes(t)`. -/
def eventsAdmits : EventsField → XcmNotificationType → Bool
  | .undef, _ => true
  | .star, _ => true
  | .list l, t => l.contains t

/-- `Switchboard.#shouldMonitorRelay`: `Relayed` is requested (or the
events field is the wildcard or undefined), the origin is not a relay
chain, and some destination is not a relay chain. -/
def shouldMonitorRelay (relays : List String) (qs : Subscription) : Bool :=
  eventsAdmits qs.events .Relayed &&
  !relays.contains qs.origin &&
  qs.destinations.any fun d => !relays.contains d

/-- The origin observer legs attached by `Switchboard.#monitorOrigins`:
two protocol observers on the origin chain (DMP and DMP-by-event when the
origin is a relay; HRMP and UMP otherwise). -/
def monitorOriginLegs (relays : List String) (qs : Subscription) :
    List String :=
  if relays.contains qs.origin then
    [qs.origin, qs.origin]
  else
    [qs.origin, qs.origin]

/-- The destination observer legs attached by
`Switchboard.#monitorDestinations`: one per destination, skipping
destinations that already have a leg in `current`. -/
def monitorDestinationLegs (current : List String)
    (destinations : List String) : List String :=
  destinations.filter fun d => !current.contains d

/-- Insertion into the persistent subscription store, keyed by id. -/
def dbInsert (qs : Subscription) (db : List Subscription) :
    List Subscription :=
  qs :: db.filter fun r => r.id != qs.id

/-- `Switchboard.#monitor`: build the handler — controls derived from the
descriptor, origin and destination legs, and a relay leg exactly when
`#shouldMonitorRelay` holds — install it, and bump the stats. -/
def monitor (s : SwitchboardState) (qs : Subscription) : SwitchboardState :=
  let handler : SubscriptionHandler :=
    { descriptor := qs
      sendersControl := sendersCriteria qs.senders
      messageControl := messageCriteria qs.destinations
      originSubs := monitorOriginLegs s.relays qs
      destinationSubs := monitorDestinationLegs [] qs.destinations
      relaySub :=
        if shouldMonitorRelay s.relays qs then some qs.origin else none }
  { s with
    subs := aput qs.id handler s.subs
    ephemeralCount :=
      if qs.ephemeral then s.ephemeralCount + 1 else s.ephemeralCount
    persistentCount :=
      if qs.ephemeral then s.persistentCount else s.persistentCount + 1 }

inductive SubscribeErrorCodes where
  | TOO_MANY_SUBSCRIBERS
deriving Repr, DecidableEq

/-- Outcome of `Switchboard.subscribe`: rejected with a `SubscribeError`,
aborted by the fatal duplicated-origin-monitor error thrown in
`#monitorOrigins`, or accepted. -/
inductive SubscribeOutcome where
  | rejected (code : SubscribeErrorCodes)
  | fatalDuplicateOrigin
  | accepted
deriving Repr, DecidableEq

/-- `Switchboard.subscribe`: reject with `TOO_MANY_SUBSCRIBERS` when the
ephemeral or the persistent count has reached its cap; otherwise persist
the descriptor when it is not ephemeral, then run `#monitor` (which
throws on a duplicated origin monitor for the same subscription id). -/
def subscribe (s : SwitchboardState) (qs : Subscription) :
    SubscribeOutcome × SwitchboardState :=
  if s.ephemeralCount ≥ s.maxEphemeral ∨ s.persistentCount ≥ s.maxPersistent then
    (.rejected .TOO_MANY_SUBSCRIBERS, s)
  else
    let s1 := if !qs.ephemeral then { s with db := dbInsert qs s.db } else s
    match alook qs.id s1.subs with
    | some h =>
      if h.originSubs.contains qs.origin then
        (.fatalDuplicateOrigin, s1)
      else
        (.accepted, monitor s1 qs)
    | none => (.accepted, monitor s1 qs)

/-- `Switchboard.unsubscribe`: warn-only no-op for an unknown id;
otherwise detach every origin, destination and relay leg, delete the
handler, call `MatchingEngine.clearPendingStates(id)`, and decrement the
stats — removing the persistent record when the subscription is not
ephemeral. -/
def unsubscribe (s : SwitchboardState) (id : String) :
    SwitchboardState × List Effect :=
  match alook id s.subs with
  | none => (s, [.warn ("unsubscribe from a non-existent subscription " ++ id)])
  | some h =>
    let legEffects :=
      h.originSubs.map Effect.unsubOrigin ++
      h.destinationSubs.map Effect.unsubDestination ++
      (match h.relaySub with
       | some c => [Effect.unsubRelay c]
       | none => [])
    let s1 := { s with subs := adel id s.subs }
    let s2 :=
      if h.descriptor.ephemeral then
        { s1 with ephemeralCount := s1.ephemeralCount - 1 }
      else
        { s1 with
          persistentCount := s1.persistentCount - 1
          db := s1.db.filter fun r => r.id != id }
    (s2, legEffects ++ [.clearPendingStates id])

/-- `Switchboard.#onXcmWaypointReached` input: the emitted message with
its subscription id, type tag and optional sender extrinsic. -/
structure XcmNotifyMessage where
  subscriptionId : String
  type : XcmNotificationType
  sender : Option ExtrinsicSenders
deriving Repr, DecidableEq

/-- `Switchboard.#onXcmWaypointReached`: when the subscription still
exists, notify exactly when the events field admits the message type and
the senders control admits the sender; otherwise warn. -/
def onXcmWaypointReached (s : SwitchboardState) (msg : XcmNotifyMessage) :
    List Effect :=
  match alook msg.subscriptionId s.subs with
  | some h =>
    if eventsAdmits h.descriptor.events msg.type &&
        matchSenders h.sendersControl msg.sender then
      [.notify msg.subscriptionId msg.type]
    else
      []
  | none =>
    [.warn ("Unable to find descriptor for subscription " ++ msg.subscriptionId)]

/-- `Switchboard.updateSenders`: re-derive the senders control from the
descriptor. Returns `none` when `this.#subs[id]` is undefined: the
destructuring of `undefined` throws a `TypeError`. -/
def updateSenders (s : SwitchboardState) (id : String) :
    Option SwitchboardState :=
  match alook id s.subs with
  | none => none
  | some h =>
    some { s with
      subs :=
        aput id
          { h with sendersControl := sendersCriteria h.descriptor.senders }
          s.subs }

/-- `Switchboard.#updateDestinationSubscriptions`: attach legs for new
destinations, detach legs whose chain id is no longer a destination, and
return the kept legs together with the detach effects. -/
def updateDestinationSubscriptions (h : SubscriptionHandler) :
    List String × List Effect :=
  let fresh := monitorDestinationLegs h.destinationSubs h.descriptor.destinations
  let updated := h.destinationSubs ++ fresh
  let removed := updated.filter fun c => !h.descriptor.destinations.contains c
  (updated.filter (fun c => h.descriptor.destinations.contains c),
   removed.map Effect.unsubDestination)

/-- `Switchboard.updateDestinations`: re-derive the message control and
update the destination legs. Returns `none` when `this.#subs[id]` is
undefined: the destructuring of `undefined` throws a `TypeError`. -/
def updateDestinations (s : SwitchboardState) (id : String) :
    Option (SwitchboardState × List Effect) :=
  match alook id s.subs with
  | none => none
  | some h =>
    let r := updateDestinationSubscriptions h
    some
      ({ s with
        subs :=
          aput id
            { h with
              messageControl := messageCriteria h.descriptor.destinations
              destinationSubs := r.1 }
            s.subs },
       r.2)

/-- `Switchboard.updateEvents`: create the relay leg when
`#shouldMonitorRelay` holds and none exists; detach and delete it when it
no longer holds and one exists. Returns `none` when `this.#subs[id]` is
undefined: the destructuring of `undefined` throws a `TypeError`. -/
def updateEvents (s : SwitchboardState) (id : String) :
    Option (SwitchboardState × List Effect) :=
  match alook id s.subs with
  | none => none
  | some h =>
    if shouldMonitorRelay s.relays h.descriptor then
      if h.relaySub.isNone then
        some
          ({ s with
            subs := aput id { h with relaySub := some h.descriptor.origin } s.subs },
           [])
      else
        some (s, [])
    else
      match h.relaySub with
      | some c =>
        some
          ({ s with subs := aput id { h with relaySub := none } s.subs },
           [.unsubRelay c])
      | none => some (s, [])

/-- `Switchboard.updateSubscription`: replace the descriptor when the id
exists, otherwise warn without touching any state. -/
def updateSubscription (s : SwitchboardState) (sub : Subscription) :
    SwitchboardState × List Effect :=
  match alook sub.id s.subs with
  | some h =>
    ({ s with subs := aput sub.id { h with descriptor := sub } s.subs }, [])
  | none =>
    (s, [.warn ("trying to update an unknown subscription " ++ sub.id)])

/-! ### Concrete switchboard states used as evaluation inputs -/

def relaysP : List String := ["urn:ocn:polkadot:0"]

def subS1 : Subscription :=
  { id := "s1"
    origin := "urn:ocn:polkadot:1000"
    senders := .list ["acctA"]
    destinations := ["urn:ocn:polkadot:2004"]
    events := .star
    ephemeral := false
    outboundTTL := 21600000 }

def subS9 : Subscription := { subS1 with id := "s9" }

def sbEmpty : SwitchboardState := mkSwitchboard relaysP none none

def sbS1 : SwitchboardState := (subscribe sbEmpty subS1).2

/-- The handler stored for `subS1` after subscribing on `sbEmpty`. -/
def handlerS1 : SubscriptionHandler :=
  { descriptor := subS1
    sendersControl := .sendersOr ["acctA"]
    messageControl := .recipientIn ["urn:ocn:polkadot:2004"]
    originSubs := ["urn:ocn:polkadot:1000", "urn:ocn:polkadot:1000"]
    destinationSubs := ["urn:ocn:polkadot:2004"]
    relaySub := some "urn:ocn:polkadot:1000" }

def sbS1Updated : SwitchboardState := (updateSenders sbS1 "s1").getD sbS1

def senderB : ExtrinsicSenders := ⟨"acctB", "0xbbbb", []⟩

def msgB : XcmNotifyMessage := ⟨"s1", .Received, some senderB⟩

/-- `subS1` with the events narrowed so that `Relayed` is no longer
requested. -/
def subS1e : Subscription := { subS1 with events := .list [.Sent] }

def sbS1e : SwitchboardState := (updateSubscription sbS1 subS1e).1

def handlerS1e : SubscriptionHandler := { handlerS1 with descriptor := subS1e }

def sbCap : SwitchboardState := mkSwitchboard relaysP (some 0) (some 0)

/-! ### Claims C4-C10 about the switchboard and the criteria -/

/-- C4: the fan-out passes an emitted message to the notifier exactly when
the originating subscription still exists, its events field (undefined or
the wildcard or a list containing the type) admits the message type, and
the current senders control admits the sender; and after `updateSenders`
refreshes the control from the descriptor, a message whose sender the
refreshed finite criteria does not admit is suppressed. -/
theorem fanout_filter_spec (s : SwitchboardState) (msg : XcmNotifyMessage) :
    (Effect.notify msg.subscriptionId msg.type ∈ onXcmWaypointReached s msg ↔
      ∃ h, alook msg.subscriptionId s.subs = some h ∧
        eventsAdmits h.descriptor.events msg.type = true ∧
        matchSenders h.sendersControl msg.sender = true) ∧
    (∀ h s2, alook msg.subscriptionId s.subs = some h →
      updateSenders s msg.subscriptionId = some s2 →
      matchSenders (sendersCriteria h.descriptor.senders) msg.sender = false →
      onXcmWaypointReached s2 msg = []) := by
  constructor
  · constructor
    · intro hmem
      cases halook : alook msg.subscriptionId s.subs with
      | none => simp [onXcmWaypointReached, halook] at hmem
      | some h =>
        simp only [onXcmWaypointReached, halook] at hmem
        split at hmem
        · rename_i hcond
          rw [Bool.and_eq_true] at hcond
          exact ⟨h, rfl, hcond.1, hcond.2⟩
        · simp at hmem
    · rintro ⟨h, halook, hev, hsend⟩
      simp [onXcmWaypointReached, halook, hev, hsend]
  · intro h s2 halook hupd hfalse
    have hs2 : s2 =
        { s with
          subs :=
            aput msg.subscriptionId
              { h with sendersControl := sendersCriteria h.descriptor.senders }
              s.subs } := by
      simp [updateSenders, halook] at hupd
      exact hupd.symm
    subst hs2
    simp [onXcmWaypointReached, alook_aput_self, hfalse]

/-- Witness for `fanout_filter_spec`: after the senders control of `s1`
is refreshed to the finite list `[acctA]`, a matched message signed by
`acctB` is suppressed at fan-out. -/
theorem fanout_filter_spec_witness :
    onXcmWaypointReached sbS1Updated msgB = [] :=
  (fanout_filter_spec sbS1 msgB).2 handlerS1 sbS1Updated
    (by decide) (by decide) (by decide)

/-- C5: unsubscribing an existing subscription detaches every origin,
destination and relay observer leg, invokes
`MatchingEngine.clearPendingStates`, deletes the handler, removes the
persistent record when the subscription is not ephemeral, and afterwards
the fan-out delivers no notification for that id; unsubscribing a
non-existent id is a warn-only no-op. -/
theorem unsubscribe_spec (s : SwitchboardState) (id : String) :
    (alook id s.subs = none →
      unsubscribe s id =
        (s, [.warn ("unsubscribe from a non-existent subscription " ++ id)])) ∧
    (∀ h, alook id s.subs = some h →
      (∀ c ∈ h.originSubs, Effect.unsubOrigin c ∈ (unsubscribe s id).2) ∧
      (∀ c ∈ h.destinationSubs,
        Effect.unsubDestination c ∈ (unsubscribe s id).2) ∧
      (∀ c, h.relaySub = some c → Effect.unsubRelay c ∈ (unsubscribe s id).2) ∧
      Effect.clearPendingStates id ∈ (unsubscribe s id).2 ∧
      alook id (unsubscribe s id).1.subs = none ∧
      (h.descriptor.ephemeral = false →
        ∀ r ∈ (unsubscribe s id).1.db, r.id ≠ id) ∧
      (h.descriptor.ephemeral = true → (unsubscribe s id).1.db = s.db) ∧
      (∀ msg : XcmNotifyMessage, msg.subscriptionId = id →
        Effect.notify id msg.type ∉ onXcmWaypointReached (unsubscribe s id).1 msg)) := by
  constructor
  · intro hnone
    simp [unsubscribe, hnone]
  · intro h halook
    have hsubs : (unsubscribe s id).1.subs = adel id s.subs := by
      simp only [unsubscribe, halook]
      by_cases he : h.descriptor.ephemeral <;> simp [he]
    have hlook2 : alook id (unsubscribe s id).1.subs = none := by
      rw [hsubs]; exact alook_adel_self id s.subs
    refine ⟨?_, ?_, ?_, ?_, hlook2, ?_, ?_, ?_⟩
    · intro c hc
      simp [unsubscribe, halook, hc]
    · intro c hc
      simp [unsubscribe, halook, hc]
    · intro c hc
      simp [unsubscribe, halook, hc]
    · simp [unsubscribe, halook]
    · intro heph r hr
      simp only [unsubscribe, halook, heph] at hr
      simp only [Bool.false_eq_true, if_false] at hr
      have := (List.mem_filter.mp hr).2
      simpa [bne_iff_ne] using this
    · intro heph
      simp [unsubscribe, halook, heph]
    · intro msg hmsg
      obtain ⟨mid, mty, msd⟩ := msg
      simp only at hmsg
      subst hmsg
      simp [onXcmWaypointReached, hlook2]

/-- Witness for `unsubscribe_spec` at the concrete subscribed state
`sbS1` and at a non-existent id. -/
theorem unsubscribe_spec_witness :
    Effect.clearPendingStates "s1" ∈ (unsubscribe sbS1 "s1").2 ∧
    alook "s1" (unsubscribe sbS1 "s1").1.subs = none ∧
    Effect.unsubRelay "urn:ocn:polkadot:1000" ∈ (unsubscribe sbS1 "s1").2 ∧
    unsubscribe sbEmpty "zz" =
      (sbEmpty, [.warn ("unsubscribe from a non-existent subscription " ++ "zz")]) := by
  have hsome := (unsubscribe_spec sbS1 "s1").2 handlerS1 (by decide)
  exact ⟨hsome.2.2.2.1, hsome.2.2.2.2.1,
    hsome.2.2.1 "urn:ocn:polkadot:1000" (by decide),
    (unsubscribe_spec sbEmpty "zz").1 (by decide)⟩

/-- C6: `subscribe` rejects with `TOO_MANY_SUBSCRIBERS` when the
ephemeral or the persistent count has reached its cap (both default to
10000); when it does not reject, a non-ephemeral descriptor is persisted
to the subscription store and an ephemeral one never is. -/
theorem subscribe_caps_spec (s : SwitchboardState) (qs : Subscription) :
    ((s.ephemeralCount ≥ s.maxEphemeral ∨ s.persistentCount ≥ s.maxPersistent) →
      subscribe s qs = (.rejected .TOO_MANY_SUBSCRIBERS, s)) ∧
    (s.ephemeralCount < s.maxEphemeral → s.persistentCount < s.maxPersistent →
      (subscribe s qs).1 ≠ .rejected .TOO_MANY_SUBSCRIBERS ∧
      (qs.ephemeral = false → qs ∈ (subscribe s qs).2.db) ∧
      (qs.ephemeral = true → (subscribe s qs).2.db = s.db)) ∧
    ((mkSwitchboard relaysP none none).maxEphemeral = 10000 ∧
      (mkSwitchboard relaysP none none).maxPersistent = 10000) := by
  refine ⟨?_, ?_, by decide, by decide⟩
  · intro hcap
    simp [subscribe, hcap]
  · intro h1 h2
    have hcap : ¬(s.ephemeralCount ≥ s.maxEphemeral ∨
        s.persistentCount ≥ s.maxPersistent) := by omega
    refine ⟨?_, ?_, ?_⟩
    · simp only [subscribe, hcap, if_false]
      split
      · split <;> simp
      · simp
    · intro heph
      simp only [subscribe, hcap, if_false, heph]
      split
      · split <;> simp [monitor, dbInsert]
      · simp [monitor, dbInsert]
    · intro heph
      simp only [subscribe, hcap, if_false, heph]
      split
      · split <;> simp [monitor]
      · simp [monitor]

/-- Witness for `subscribe_caps_spec`: a zero-cap switchboard rejects,
and the default switchboard accepts and persists the non-ephemeral
descriptor. -/
theorem subscribe_caps_spec_witness :
    subscribe sbCap subS1 = (.rejected .TOO_MANY_SUBSCRIBERS, sbCap) ∧
    (subscribe sbEmpty subS1).1 ≠ .rejected .TOO_MANY_SUBSCRIBERS ∧
    subS1 ∈ (subscribe sbEmpty subS1).2.db := by
  have hrej := (subscribe_caps_spec sbCap subS1).1 (Or.inl (by decide))
  have hacc := (subscribe_caps_spec sbEmpty subS1).2.1 (by decide) (by decide)
  exact ⟨hrej, hacc.1, hacc.2.1 (by decide)⟩

/-- C7: a relay observer leg exists exactly when the events field admits
`Relayed` (undefined, the wildcard, or a list containing it), the origin
is not a relay chain, and some destination is not a relay chain — both
after `#monitor` installs a handler and after any successful
`updateEvents`; and when the condition stops holding, `updateEvents`
detaches and deletes the relay leg. -/
theorem relay_observer_spec :
    (∀ (s : SwitchboardState) (qs : Subscription),
      ∃ h, alook qs.id (monitor s qs).subs = some h ∧
        h.descriptor = qs ∧
        h.relaySub.isSome =
          (eventsAdmits qs.events .Relayed && !s.relays.contains qs.origin &&
            qs.destinations.any fun d => !s.relays.contains d)) ∧
    (∀ (s s2 : SwitchboardState) (id : String) (effs : List Effect),
      updateEvents s id = some (s2, effs) →
      ∃ h2, alook id s2.subs = some h2 ∧
        h2.relaySub.isSome =
          (eventsAdmits h2.descriptor.events .Relayed &&
            !s.relays.contains h2.descriptor.origin &&
            h2.descriptor.destinations.any fun d => !s.relays.contains d)) ∧
    (∀ (s : SwitchboardState) (id : String) (h : SubscriptionHandler) (c : String),
      alook id s.subs = some h → h.relaySub = some c →
      shouldMonitorRelay s.relays h.descriptor = false →
      updateEvents s id =
        some ({ s with subs := aput id { h with relaySub := none } s.subs },
          [.unsubRelay c])) := by
  refine ⟨?_, ?_, ?_⟩
  · intro s qs
    refine ⟨_, alook_aput_self _ _ _, rfl, ?_⟩
    cases hP : shouldMonitorRelay s.relays qs with
    | true =>
      simp only [shouldMonitorRelay] at hP
      rw [hP]
      rfl
    | false =>
      simp only [shouldMonitorRelay] at hP
      rw [hP]
      rfl
  · intro s s2 id effs hupd
    cases halook : alook id s.subs with
    | none => simp [updateEvents, halook] at hupd
    | some h =>
      simp only [updateEvents, halook] at hupd
      cases hP : shouldMonitorRelay s.relays h.descriptor with
      | true =>
        cases hr : h.relaySub with
        | none =>
          simp [hP, hr] at hupd
          obtain ⟨hs2, -⟩ := hupd
          subst hs2
          simp only [shouldMonitorRelay] at hP
          refine ⟨_, alook_aput_self _ _ _, ?_⟩
          show (some h.descriptor.origin).isSome =
            (eventsAdmits h.descriptor.events .Relayed &&
              !s.relays.contains h.descriptor.origin &&
              h.descriptor.destinations.any fun d => !s.relays.contains d)
          rw [hP]
          rfl
        | some c =>
          simp [hP, hr] at hupd
          obtain ⟨hs2, -⟩ := hupd
          subst hs2
          simp only [shouldMonitorRelay] at hP
          refine ⟨h, halook, ?_⟩
          rw [hr, hP]
          rfl
      | false =>
        cases hr : h.relaySub with
        | none =>
          simp [hP, hr] at hupd
          obtain ⟨hs2, -⟩ := hupd
          subst hs2
          simp only [shouldMonitorRelay] at hP
          refine ⟨h, halook, ?_⟩
          rw [hr, hP]
          rfl
        | some c =>
          simp [hP, hr] at hupd
          obtain ⟨hs2, -⟩ := hupd
          subst hs2
          simp only [shouldMonitorRelay] at hP
          refine ⟨_, alook_aput_self _ _ _, ?_⟩
          show (Option.isSome (none : Option String)) =
            (eventsAdmits h.descriptor.events .Relayed &&
              !s.relays.contains h.descriptor.origin &&
              h.descriptor.destinations.any fun d => !s.relays.contains d)
          rw [hP]
          rfl
  · intro s id h c halook hr hP
    simp [updateEvents, halook, hP, hr]

/-- Witness for `relay_observer_spec`: the subscribed state `sbS1` holds a
relay leg matching the condition, and narrowing the events to `[Sent]`
makes `updateEvents` detach and delete it. -/
theorem relay_observer_spec_witness :
    (∃ h2, alook "s1" sbS1.subs = some h2 ∧
      h2.relaySub.isSome =
        (eventsAdmits h2.descriptor.events .Relayed &&
          !sbS1.relays.contains h2.descriptor.origin &&
          h2.descriptor.destinations.any fun d => !sbS1.relays.contains d)) ∧
    updateEvents sbS1e "s1" =
      some
        ({ sbS1e with
            subs := aput "s1" { handlerS1e with relaySub := none } sbS1e.subs },
          [.unsubRelay "urn:ocn:polkadot:1000"]) := by
  refine ⟨?_, ?_⟩
  · exact relay_observer_spec.2.1 sbS1 sbS1 "s1" [] (by decide)
  · exact relay_observer_spec.2.2 sbS1e "s1" handlerS1e "urn:ocn:polkadot:1000"
      (by decide) (by decide) (by decide)

/-- C8 counterexample: on a switchboard with no subscriptions,
`updateSenders`, `updateDestinations` and `updateEvents` on a non-existent
id all throw (the destructuring of `this.#subs[id]`, which is `undefined`,
raises a `TypeError`, modelled as `none`) — contradicting the claim that
every update operation is warn-only on a non-existent id. -/
theorem update_nonexistent_cex :
    updateSenders sbEmpty "s9" = none ∧
    updateDestinations sbEmpty "s9" = none ∧
    updateEvents sbEmpty "s9" = none := by decide

/-- C8 (amended): for an id not present in the subscription map,
`updateSubscription` logs a warning, throws no error and leaves all state
unchanged, while `updateSenders`, `updateDestinations` and `updateEvents`
throw a `TypeError` on the destructuring of `undefined` and leave all
state unchanged. -/
theorem update_nonexistent_spec (s : SwitchboardState) (qs : Subscription)
    (hid : alook qs.id s.subs = none) :
    updateSubscription s qs =
      (s, [.warn ("trying to update an unknown subscription " ++ qs.id)]) ∧
    updateSenders s qs.id = none ∧
    updateDestinations s qs.id = none ∧
    updateEvents s qs.id = none := by
  refine ⟨?_, ?_, ?_, ?_⟩ <;>
    simp [updateSubscription, updateSenders, updateDestinations, updateEvents, hid]

/-- Witness for `update_nonexistent_spec` at the empty switchboard and
the unknown id `s9`. -/
theorem update_nonexistent_spec_witness :
    updateSubscription sbEmpty subS9 =
      (sbEmpty, [.warn ("trying to update an unknown subscription " ++ subS9.id)]) ∧
    updateSenders sbEmpty subS9.id = none ∧
    updateDestinations sbEmpty subS9.id = none ∧
    updateEvents sbEmpty subS9.id = none :=
  update_nonexistent_spec sbEmpty subS9 (by decide)

/-- C9: `sendersCriteria` maps the wildcard to the match-anything
criteria; a finite list maps to the disjunction of the four membership
tests over the signer and extra-signer ids and public keys; the empty
list admits no sender at all, which is distinct from the wildcard. -/
theorem sendersCriteria_spec :
    sendersCriteria .star = .matchAny ∧
    (∀ r : ExtrinsicSenders,
      Criteria.testSenders (sendersCriteria .star) r = true) ∧
    (∀ (senders : List String) (r : ExtrinsicSenders),
      Criteria.testSenders (sendersCriteria (.list senders)) r = true ↔
        (r.signerId ∈ senders ∨ r.signerPublicKey ∈ senders ∨
          ∃ e ∈ r.extraSigners, e.id ∈ senders ∨ e.publicKey ∈ senders)) ∧
    (∀ r : ExtrinsicSenders,
      Criteria.testSenders (sendersCriteria (.list [])) r = false) ∧
    (∃ r : ExtrinsicSenders,
      Criteria.testSenders (sendersCriteria (.list [])) r ≠
        Criteria.testSenders (sendersCriteria .star) r) := by
  refine ⟨rfl, fun r => rfl, ?_, ?_, ⟨⟨"a", "b", []⟩, by decide⟩⟩
  · intro senders r
    simp [sendersCriteria, Criteria.testSenders, List.any_eq_true, or_assoc]
  · intro r
    simp [sendersCriteria, Criteria.testSenders]

/-- C10: `matchSenders` returns `false` on an undefined extrinsic for
every control query, the wildcard included; consequently the fan-out
never emits a notify effect for a message without a sender. -/
theorem matchSenders_undefined_spec :
    (∀ q : Criteria, matchSenders q none = false) ∧
    (∀ (s : SwitchboardState) (subId : String) (t : XcmNotificationType),
      (onXcmWaypointReached s ⟨subId, t, none⟩).filter Effect.isNotify = []) := by
  constructor
  · intro q; rfl
  · intro s subId t
    cases halook : alook subId s.subs with
    | none => simp [onXcmWaypointReached, halook, Effect.isNotify]
    | some h => simp [onXcmWaypointReached, halook, matchSenders]

end Ocelloids
